import Mathlib

/-!
Verification of the contact-flow simulator's execution engine against its
specification.  Go source structures and functions are embedded shallowly:
Go maps become association lists, pointers become `Option`, fallible
functions return `Except String`, and the mutable call connector becomes
explicit state passing over a `CallState` record.
-/

namespace ACSim

/-- Go interface values carried by branch conditions and parameters:
a string, a bool, a number, or nil. -/
inductive GoVal where
  | null
  | str (s : String)
  | bool (b : Bool)
  | num (n : Int)
deriving DecidableEq, Repr

/-- String form of a value, as produced by fmt-style coercion. -/
def GoVal.asString : GoVal → String
  | .null => ""
  | .str s => s
  | .bool b => if b then "true" else "false"
  | .num n => toString n

/-- ModuleID is a uuid assigned to a block in the flow (flow.go). -/
abbrev ModuleID := String

/-- ModuleBranch is a single output of a block and the data required to choose it (flow.go). -/
structure ModuleBranch where
  condition : String
  conditionType : String
  conditionValue : GoVal
  transition : ModuleID
deriving DecidableEq, Repr

/-- ModuleParameter is a single parameter configuring a block (flow.go). -/
structure ModuleParameter where
  name : String
  key : String
  value : GoVal
  nameSpace : Option String
  resourceName : String
deriving DecidableEq, Repr

/-- Module holds data about a single block in the flow (flow.go). -/
structure Module where
  id : ModuleID
  type : String
  branches : List ModuleBranch
  parameters : List ModuleParameter
  target : String
deriving DecidableEq, Repr

/-- Flow is the base of the structure of an exported flow (flow.go); only the
fields the simulator reads are kept (metadata is flattened to its name). -/
structure Flow where
  start : ModuleID
  name : String
deriving DecidableEq, Repr

/-- Known system keys used by the embedded runners (flow.go). -/
def SystemQueueName : String := "Queue.Name"

/-- System key holding the queue ARN (flow.go). -/
def SystemQueueARN : String := "Queue.ARN"

/-- System key holding the last stored customer input (flow.go). -/
def SystemLastUserInput : String := "Stored customer input"

/-- GetLink gets the ID of the block linked to by the output with the given name
(flow.go, ModuleBranchList.GetLink). -/
def ModuleBranchList.GetLink (mbl : List ModuleBranch) (named : String) : Option ModuleID :=
  match mbl with
  | [] => none
  | p :: rest => if p.condition = named then some p.transition else GetLink rest named

/-- Get gets a single parameter with the given name
(flow.go, ModuleParameterList.Get); the Go (zero, false) return is `none`. -/
def ModuleParameterList.Get (mpl : List ModuleParameter) (named : String) : Option ModuleParameter :=
  match mpl with
  | [] => none
  | p :: rest => if p.name = named then some p else Get rest named

/-- List gets the parameters with the given name (flow.go, ModuleParameterList.List). -/
def ModuleParameterList.List (mpl : List ModuleParameter) (named : String) : List ModuleParameter :=
  match mpl with
  | [] => []
  | p :: rest => if p.name = named then p :: List rest named else List rest named

/-- Typed events emitted during execution (event package), as constructed by the
runners in this repository: queue, flow and number transfers. -/
inductive Event where
  | queueTransfer (queueARN queueName : String)
  | flowTransfer (flowARN flowName : String)
  | numberTransfer (tel : String)
deriving DecidableEq, Repr

/-- Event kind tags, mirroring the Type discriminator on events. -/
inductive EventType where
  | transferQueue
  | transferFlow
  | transferNumber
deriving DecidableEq, Repr

/-- Type discriminator of an event, mirroring Event.Type in the event package. -/
def Event.type : Event → EventType
  | .queueTransfer _ _ => .transferQueue
  | .flowTransfer _ _ => .transferFlow
  | .numberTransfer _ => .transferNumber

/-- Association-list lookup embedding a Go map read (first binding wins; the
set operation below keeps keys unique). -/
def lookupAssoc {α : Type} (l : List (String × α)) (k : String) : Option α :=
  match l with
  | [] => none
  | (k2, v) :: rest => if k2 = k then some v else lookupAssoc rest k

/-- Association-list update embedding a Go map write. -/
def setAssoc {α : Type} (l : List (String × α)) (k : String) (v : α) : List (String × α) :=
  match l with
  | [] => [(k, v)]
  | (k2, v2) :: rest => if k2 = k then (k, v) :: rest else (k2, v2) :: setAssoc rest k v

/-- The state of one simulated call, embedding the mutable side of the
CallConnector capability set: the three key-value stores, the flow-start
table, the last outbound prompt, the pending receive outcome (`none` means
the receive times out with no input delivered), and the ordered event log. -/
structure CallState where
  external : List (String × String)
  contactData : List (String × String)
  system : List (String × String)
  flowStart : List (String × ModuleID)
  output : Option (String × Bool)
  rcvInput : Option String
  events : List Event
deriving DecidableEq, Repr

/-- GetSystem connector operation: read a system key. -/
def CallState.GetSystem (s : CallState) (k : String) : Option String :=
  lookupAssoc s.system k

/-- SetSystem connector operation: write a system key. -/
def CallState.SetSystem (s : CallState) (k v : String) : CallState :=
  { s with system := setAssoc s.system k v }

/-- SetContactData connector operation: write a user-defined attribute. -/
def CallState.SetContactData (s : CallState) (k v : String) : CallState :=
  { s with contactData := setAssoc s.contactData k v }

/-- Emit connector operation: append an event to the ordered log. -/
def CallState.Emit (s : CallState) (e : Event) : CallState :=
  { s with events := s.events ++ [e] }

/-- Send connector operation: record the most recent outbound prompt. -/
def CallState.Send (s : CallState) (text : String) (ssml : Bool) : CallState :=
  { s with output := some (text, ssml) }

/-- GetFlowStart connector operation: look up the start block of a named flow. -/
def CallState.GetFlowStart (s : CallState) (flowName : String) : Option ModuleID :=
  lookupAssoc s.flowStart flowName

/-- disconnect.Run (src/unnamed/part_000): type check, then terminate with no
successor. -/
def disconnect.Run (m : Module) (s : CallState) :
    Except String (Option ModuleID) × CallState :=
  if m.type ≠ "Disconnect" then
    (.error ("module of type " ++ m.type ++ " being run as disconnect"), s)
  else
    (.ok none, s)

/-- setQueue.Run (src/unnamed/part_001): type check, require the Queue
parameter, store its ARN value and resource name into system state, follow
Success.  The Go `p.Value.(string)` assertion panics on a non-string value;
the panic is embedded as an error result. -/
def setQueue.Run (m : Module) (s : CallState) :
    Except String (Option ModuleID) × CallState :=
  if m.type ≠ "SetQueue" then
    (.error ("module of type " ++ m.type ++ " being run as setQueue"), s)
  else
    match ModuleParameterList.Get m.parameters "Queue" with
    | none => (.error "missing Queue parameter", s)
    | some p =>
      match p.value with
      | .str arn =>
        (.ok (ModuleBranchList.GetLink m.branches "Success"),
         (s.SetSystem SystemQueueARN arn).SetSystem SystemQueueName p.resourceName)
      | _ => (.error "interface conversion: Queue value is not a string", s)

/-- transfer.Run (src/unnamed/part_003, second revision, the current one):
type check, then behave per the target qualifier.  Flow: resolve the named
flow's start, Error branch when absent, else emit a flow-transfer event and
jump there.  Queue: Error branch when the queue name or ARN was never set,
else emit a queue-transfer event and terminate.  PhoneNumber: require a
boolean BlindTransfer and a string PhoneNumber, emit a number-transfer
event, terminate when blind, else follow Success. -/
def transfer.Run (m : Module) (s : CallState) :
    Except String (Option ModuleID) × CallState :=
  if m.type ≠ "Transfer" then
    (.error ("module of type " ++ m.type ++ " being run as transfer"), s)
  else if m.target = "Flow" then
    match ModuleParameterList.Get m.parameters "ContactFlowId" with
    | none => (.error "missing ContactFlowId parameter", s)
    | some cfid =>
      match s.GetFlowStart cfid.resourceName with
      | none => (.ok (ModuleBranchList.GetLink m.branches "Error"), s)
      | some nxt =>
        match cfid.value with
        | .str arn =>
          (.ok (some nxt), s.Emit (.flowTransfer arn cfid.resourceName))
        | _ => (.error "interface conversion: ContactFlowId value is not a string", s)
  else if m.target = "Queue" then
    match s.GetSystem SystemQueueName, s.GetSystem SystemQueueARN with
    | some qn, some qa => (.ok none, s.Emit (.queueTransfer qa qn))
    | _, _ => (.ok (ModuleBranchList.GetLink m.branches "Error"), s)
  else if m.target = "PhoneNumber" then
    match ModuleParameterList.Get m.parameters "BlindTransfer" with
    | none => (.error "missing BlindTransfer parameter", s)
    | some pb =>
      match pb.value with
      | .bool blind =>
        match ModuleParameterList.Get m.parameters "PhoneNumber" with
        | none => (.error "missing PhoneNumber parameter", s)
        | some pn =>
          match pn.value with
          | .str tel =>
            if blind then (.ok none, s.Emit (.numberTransfer tel))
            else (.ok (ModuleBranchList.GetLink m.branches "Success"),
                  s.Emit (.numberTransfer tel))
          | _ => (.error "missing PhoneNumber parameter", s)
      | _ => (.error "missing BlindTransfer parameter", s)
  else
    (.error ("unhandled transfer target: " ++ m.target), s)

/-- setAttributes.Run (src/module/setattributes.go): type check, then write
each Attribute key/value pair into the caller-attribute store and follow
Success.  The reflection helper UnmarshalParameters is not in the snapshot;
its effect on the Attribute field is modelled from the spec: each Attribute
parameter contributes its key and the string form of its value. -/
def setAttributes.Run (m : Module) (s : CallState) :
    Except String (Option ModuleID) × CallState :=
  if m.type ≠ "SetAttributes" then
    (.error ("module of type " ++ m.type ++ " being run as setAttributes"), s)
  else
    let pairs := (ModuleParameterList.List m.parameters "Attribute").map
      (fun p => (p.key, p.value.asString))
    (.ok (ModuleBranchList.GetLink m.branches "Success"),
     pairs.foldl (fun st kv => st.SetContactData kv.1 kv.2) s)

/-- Modelled from the spec: the three-way namespace dispatch of the parameter
resolver (its source file is not in the repository snapshot).  External,
System and User Defined references read the matching call-state store; any
other namespace resolves to nothing. -/
def lookupNamespaceStore (st : CallState) (ns key : String) : Option String :=
  if ns = "External" then lookupAssoc st.external key
  else if ns = "System" then lookupAssoc st.system key
  else if ns = "User Defined" then lookupAssoc st.contactData key
  else none

/-- Characters accepted inside a template reference key. -/
def isKeyChar (c : Char) : Bool :=
  c.isAlphanum || c = '_' || c = '-'

/-- Modelled from the spec: recognition of one embedded reference, the text
after a leading dollar-dot.  The namespace runs to the next dot and must be
one of the three known namespaces; the key is the maximal nonempty run of
key characters after that dot.  Returns the namespace, the key and the
remaining unscanned text. -/
def parseRef (l : List Char) : Option (String × String × List Char) :=
  let nsChars := l.takeWhile (fun c => decide (c ≠ '.') && decide (c ≠ '$'))
  match l.drop nsChars.length with
  | '.' :: rest2 =>
    let key := rest2.takeWhile isKeyChar
    if (decide (String.mk nsChars = "External") || decide (String.mk nsChars = "System")
        || decide (String.mk nsChars = "User Defined")) && !key.isEmpty then
      some (String.mk nsChars, String.mk key, rest2.drop key.length)
    else none
  | _ => none

/-- Modelled from the spec: the template-substitution scan over the character
list.  On a dollar-dot, a recognised reference with a successful lookup is
replaced by the looked-up value (which is not rescanned) and scanning resumes
after the reference; otherwise the text is left verbatim and scanning resumes
after the dollar.  The fuel argument is set to the text length by the wrapper,
enough for the whole scan since every step consumes at least one character. -/
def substAux (st : CallState) : Nat → List Char → List Char
  | 0, l => l
  | _ + 1, [] => []
  | fuel + 1, c :: rest =>
    if c = '$' ∧ rest.head? = some '.' then
      match parseRef rest.tail with
      | some (ns, key, rem) =>
        match lookupNamespaceStore st ns key with
        | some v => v.data ++ substAux st fuel rem
        | none => c :: substAux st fuel rest
      | none => c :: substAux st fuel rest
    else c :: substAux st fuel rest

/-- Modelled from the spec: inline template substitution over a text value,
replacing each embedded dollar-dot reference whose key is found in the
matching namespace store and leaving unresolved references verbatim. -/
def substituteTemplates (st : CallState) (s : String) : String :=
  String.mk (substAux st s.data.length s.data)

/-- Whether the character list contains a dollar immediately followed by a dot,
the start of a possible template reference. -/
def hasRefStart : List Char → Bool
  | [] => false
  | c :: rest => (decide (c = '$') && decide (rest.head? = some '.')) || hasRefStart rest

/-- Modelled from the spec: full resolution of a textual parameter.  A
namespaced parameter's value is a lookup key (a miss resolves to the empty
string); a plain parameter's value is literal.  Either way the result is
scanned for embedded template references. -/
def resolveParamText (st : CallState) (p : ModuleParameter) : String :=
  let raw :=
    match p.nameSpace with
    | some ns => (lookupNamespaceStore st ns p.value.asString).getD ""
    | none => p.value.asString
  substituteTemplates st raw

/-- Digit-run parse used by atoi: all characters must be digits. -/
def digitsToNat (l : List Char) : Option Nat :=
  if l.isEmpty then none
  else if l.all (fun c => c.isDigit) then
    some (l.foldl (fun acc c => acc * 10 + (c.toNat - 48)) 0)
  else none

/-- Embedding of Go strconv.Atoi: an optional sign followed by a nonempty
run of digits; anything else fails. -/
def atoi? (s : String) : Option Int :=
  match s.data with
  | '+' :: rest => (digitsToNat rest).map Int.ofNat
  | '-' :: rest => (digitsToNat rest).map (fun n => -(n : Int))
  | l => (digitsToNat l).map Int.ofNat

/-- UTF-8 encoding of one character, embedding the Go string-to-bytes
conversion. -/
def utf8EncodeChar (c : Char) : List Nat :=
  let n := c.toNat
  if n < 128 then [n]
  else if n < 2048 then [192 + n / 64, 128 + n % 64]
  else if n < 65536 then [224 + n / 4096, 128 + n / 64 % 64, 128 + n % 64]
  else [240 + n / 262144, 128 + n / 4096 % 64, 128 + n / 64 % 64, 128 + n % 64]

/-- Byte sequence of a string, embedding Go byte-slice conversion. -/
def strBytes (s : String) : List Nat :=
  (s.data.map utf8EncodeChar).flatten

/-- The standard base64 alphabet. -/
def base64Alphabet : List Char :=
  "ABCDEFGHIJKLMNOPQRSTUVWXYZabcdefghijklmnopqrstuvwxyz0123456789+/".data

/-- Character for one six-bit group. -/
def b64char (n : Nat) : Char :=
  base64Alphabet.getD n '='

/-- Embedding of Go encoding/base64 StdEncoding.EncodeToString: three input
bytes become four alphabet characters; a final group of one or two bytes is
padded with equals signs. -/
def base64Encode : List Nat → String
  | [] => ""
  | [b0] =>
    let n := b0 % 256
    String.mk [b64char (n / 4), b64char (n % 4 * 16), '=', '=']
  | [b0, b1] =>
    let n := (b0 % 256) * 256 + b1 % 256
    String.mk [b64char (n / 1024), b64char (n / 16 % 64), b64char (n % 16 * 4), '=']
  | b0 :: b1 :: b2 :: rest =>
    let n := (b0 % 256) * 65536 + (b1 % 256) * 256 + b2 % 256
    String.mk [b64char (n / 262144), b64char (n / 4096 % 64),
               b64char (n / 64 % 64), b64char (n % 64)]
      ++ base64Encode rest

/-- Whether the block requests speech markup, from its TextToSpeechType
parameter. -/
def isSSML (mpl : List ModuleParameter) : Bool :=
  match ModuleParameterList.Get mpl "TextToSpeechType" with
  | some p => decide (p.value = GoVal.str "ssml")
  | none => false

/-- Modelled from the spec: storeUserInput.Run, whose source file is not in the
repository snapshot (only its test is).  Behavior per the spec table and the
test: type check; require the Text, Timeout, MaxDigits, EncryptEntry and
DisableCancel parameters (a missing one is fatal; a malformed Timeout is a
fatal Atoi parse error); resolve Text with template substitution and send it;
then receive.  On timeout the call proceeds via Success with no further state
change.  On receipt, with EncryptEntry set the raw input, key id and
certificate bytes go through the encryption hook and the base64 encoding of
the result is stored as last-input; otherwise the raw input is stored
verbatim; either way the call proceeds via Success.  The encryption hook is
passed explicitly; input delivery is the rcvInput oracle of the state. -/
def storeUserInput.Run (encrypt : String → String → List Nat → List Nat)
    (m : Module) (s : CallState) :
    Except String (Option ModuleID) × CallState :=
  if m.type ≠ "StoreUserInput" then
    (.error ("module of type " ++ m.type ++ " being run as storeUserInput"), s)
  else
    match ModuleParameterList.Get m.parameters "Text" with
    | none => (.error "missing parameter Text", s)
    | some pText =>
      match ModuleParameterList.Get m.parameters "Timeout" with
      | none => (.error "missing parameter Timeout", s)
      | some pTimeout =>
        match pTimeout.value with
        | .str tstr =>
          match atoi? tstr with
          | none =>
            (.error ("strconv.Atoi: parsing \"" ++ tstr ++ "\": invalid syntax"), s)
          | some _ =>
            match ModuleParameterList.Get m.parameters "MaxDigits" with
            | none => (.error "missing parameter MaxDigits", s)
            | some pMax =>
              match pMax.value with
              | .num _ =>
                match ModuleParameterList.Get m.parameters "EncryptEntry" with
                | none => (.error "missing parameter EncryptEntry", s)
                | some pEnc =>
                  match pEnc.value with
                  | .bool encryptEntry =>
                    match ModuleParameterList.Get m.parameters "DisableCancel" with
                    | none => (.error "missing parameter DisableCancel", s)
                    | some pDC =>
                      match pDC.value with
                      | .bool _ =>
                        let s1 := s.Send (resolveParamText s pText) (isSSML m.parameters)
                        match s1.rcvInput with
                        | none =>
                          (.ok (ModuleBranchList.GetLink m.branches "Success"), s1)
                        | some input =>
                          if encryptEntry then
                            match ModuleParameterList.Get m.parameters "EncryptionKeyId" with
                            | none => (.error "missing parameter EncryptionKeyId", s1)
                            | some pKid =>
                              match pKid.value with
                              | .str keyID =>
                                match ModuleParameterList.Get m.parameters "EncryptionKey" with
                                | none => (.error "missing parameter EncryptionKey", s1)
                                | some pCert =>
                                  match pCert.value with
                                  | .str cert =>
                                    (.ok (ModuleBranchList.GetLink m.branches "Success"),
                                     s1.SetSystem SystemLastUserInput
                                       (base64Encode (encrypt input keyID (strBytes cert))))
                                  | _ => (.error "invalid parameter EncryptionKey", s1)
                              | _ => (.error "invalid parameter EncryptionKeyId", s1)
                          else
                            (.ok (ModuleBranchList.GetLink m.branches "Success"),
                             s1.SetSystem SystemLastUserInput input)
                      | _ => (.error "invalid parameter DisableCancel", s)
                  | _ => (.error "invalid parameter EncryptEntry", s)
              | _ => (.error "invalid parameter MaxDigits", s)
        | _ => (.error "invalid parameter Timeout", s)

/-- The twelve runner behaviors dispatch can select (TestMakeRunner in
src/unnamed/part_002 fixes this enumeration). -/
inductive Runner where
  | storeUserInput
  | checkAttribute
  | transfer
  | playPrompt
  | disconnect
  | setQueue
  | getUserInput
  | setAttributes
  | invokeExternalResource
  | checkHoursOfOperation
  | setVoice
  | passthrough
deriving DecidableEq, Repr

/-- The closed enumeration of known block type tags (flow.go). -/
def knownModuleTypes : List String :=
  ["StoreUserInput", "CheckAttribute", "Transfer", "PlayPrompt", "Disconnect",
   "SetQueue", "GetUserInput", "SetAttributes", "InvokeExternalResource",
   "CheckHoursOfOperation", "SetVoice"]

/-- Modelled from the spec: MakeRunner, whose source file is not in the
repository snapshot (only TestMakeRunner is).  A total mapping from the
block's type tag to its runner; every tag outside the known enumeration
selects the passthrough runner. -/
def MakeRunner (m : Module) : Runner :=
  if m.type = "StoreUserInput" then .storeUserInput
  else if m.type = "CheckAttribute" then .checkAttribute
  else if m.type = "Transfer" then .transfer
  else if m.type = "PlayPrompt" then .playPrompt
  else if m.type = "Disconnect" then .disconnect
  else if m.type = "SetQueue" then .setQueue
  else if m.type = "GetUserInput" then .getUserInput
  else if m.type = "SetAttributes" then .setAttributes
  else if m.type = "InvokeExternalResource" then .invokeExternalResource
  else if m.type = "CheckHoursOfOperation" then .checkHoursOfOperation
  else if m.type = "SetVoice" then .setVoice
  else .passthrough

/-- Modelled from the spec: the passthrough runner, whose source file is not in
the repository snapshot.  Its only behavior is to follow the block's
Success-labeled branch if present and otherwise return no successor; it never
fails and never touches call state. -/
def passthrough.Run (m : Module) (s : CallState) :
    Except String (Option ModuleID) × CallState :=
  (.ok (ModuleBranchList.GetLink m.branches "Success"), s)

/-- queueTransferMatcher.match (src/flowtest/transfer.go): not-applicable with
empty diagnostics on any other event kind; on a queue-transfer event it is
applicable, passes exactly when the observed queue name equals the asserted
one, and reports the observed name. -/
def queueTransferMatcher.matchEvt (queueName : String) (evt : Event) :
    Bool × Bool × String :=
  match evt with
  | .queueTransfer _ name => (true, decide (name = queueName), name)
  | _ => (false, false, "")

/-- flowTransferMatcher.match (src/flowtest/transfer.go): not-applicable with
empty diagnostics on any other event kind; on a flow-transfer event it is
applicable, passes exactly when the observed flow name equals the asserted
one, and reports the observed name. -/
def flowTransferMatcher.matchEvt (flowName : String) (evt : Event) :
    Bool × Bool × String :=
  match evt with
  | .flowTransfer _ name => (true, decide (name = flowName), name)
  | _ => (false, false, "")

/-- Configuration of a new simulated call; only the destination number is read
by StartCall. -/
structure CallConfig where
  sourceNumber : String
  destNumber : String
deriving DecidableEq, Repr

/-- The cross-call read-only configuration of the simulator (src/unnamed/
part_004): the loaded flows by name and the starting flow per telephone
number. -/
structure Simulator where
  flows : List (String × Flow)
  telFlow : List (String × Flow)
deriving DecidableEq, Repr

/-- SetStartingFlowFor (src/unnamed/part_004): registers the named loaded flow
as the starting flow of a telephone number, failing when the flow was not
loaded. -/
def Simulator.SetStartingFlowFor (cs : Simulator) (tel flowName : String) :
    Except String Simulator :=
  match lookupAssoc cs.flows flowName with
  | none =>
    .error "starting flow not found. Load the flow with LoadFlow before calling this method"
  | some f => .ok { cs with telFlow := setAssoc cs.telFlow tel f }

/-- StartCall (src/unnamed/part_004): fails when the destination number is
empty or no starting flow is registered for it; otherwise the new call begins
at the registered flow's start block, which is the value embedded here (the
Call machinery itself carries it unchanged into the driving loop). -/
def Simulator.StartCall (cs : Simulator) (config : CallConfig) :
    Except String ModuleID :=
  if config.destNumber = "" then
    .error "a destination number must be provided in order to start a flow"
  else
    match lookupAssoc cs.telFlow config.destNumber with
    | none => .error "no starting flow set. Call SetStartingFlowFor before starting a call"
    | some start => .ok start.start

/-- A fresh call state: empty stores, no prompt sent, a pending receive that
will time out, no events. -/
def emptyCallState : CallState :=
  { external := [], contactData := [], system := [], flowStart := [],
    output := none, rcvInput := none, events := [] }

/-- A Transfer block with Queue target and the usual Success and Error
branches. -/
def queueMod : Module :=
  { id := "43dcc4f2-3392-4a38-90ed-0216f8594ea8", type := "Transfer",
    branches := [⟨"Success", "", .null, "00000000-0000-4000-0000-000000000001"⟩,
                 ⟨"Error", "", .null, "00000000-0000-4000-0000-000000000002"⟩],
    parameters := [], target := "Queue" }

/-- A call state in which a SetQueue block has stored the queue identity. -/
def queueSetState : CallState :=
  { emptyCallState with
    system := [("Queue.ARN", "arn:aws:connect:queue:sales"), ("Queue.Name", "sales")] }

/-- A Transfer block with PhoneNumber target and a boolean BlindTransfer
parameter. -/
def phoneMod (blind : Bool) : Module :=
  { id := "43dcc4f2-3392-4a38-90ed-0216f8594ea9", type := "Transfer",
    branches := [⟨"Success", "", .null, "00000000-0000-4000-0000-000000000001"⟩,
                 ⟨"Error", "", .null, "00000000-0000-4000-0000-000000000002"⟩],
    parameters := [⟨"BlindTransfer", "", .bool blind, none, ""⟩,
                   ⟨"PhoneNumber", "", .str "+441234567890", none, ""⟩],
    target := "PhoneNumber" }

/-- A block of a type tag outside the known enumeration (from TestMakeRunner). -/
def unknownMod : Module :=
  { id := "u1", type := "WhatIsThisIDontEven",
    branches := [⟨"Success", "", .null, "00000000-0000-4000-0000-000000000001"⟩],
    parameters := [], target := "" }

/-- The well-formed StoreUserInput block of the test file (jsonOK): namespaced
Text, string Timeout, numeric MaxDigits, EncryptEntry false. -/
def okMod : Module :=
  { id := "55c7b51c-ab55-4c63-ac42-235b4a0f904f", type := "StoreUserInput",
    branches := [⟨"Success", "", .null, "00000000-0000-4000-0000-000000000001"⟩,
                 ⟨"Error", "", .null, "00000000-0000-4000-0000-000000000002"⟩],
    parameters := [⟨"Text", "", .str "prompt", some "External", ""⟩,
      ⟨"TextToSpeechType", "", .str "ssml", none, ""⟩,
      ⟨"CustomerInputType", "", .str "Custom", none, ""⟩,
      ⟨"Timeout", "", .str "7", none, ""⟩,
      ⟨"MaxDigits", "", .num 8, none, ""⟩,
      ⟨"EncryptEntry", "", .bool false, none, ""⟩,
      ⟨"DisableCancel", "", .bool true, none, ""⟩],
    target := "" }

/-- The call state of the timeout test case: the prompt text in the external
store and a receive that delivers nothing before the timeout. -/
def timeoutState : CallState :=
  { emptyCallState with
    external := [("prompt", "<speak>Please enter digits 1 and 3 of your passcode.</speak>")],
    rcvInput := none }

/-- The encrypting StoreUserInput block of the test file (jsonOKEncrypted). -/
def encMod : Module :=
  { id := "55c7b51c-ab55-4c63-ac42-235b4a0f904f", type := "StoreUserInput",
    branches := [⟨"Success", "", .null, "00000000-0000-4000-0000-000000000001"⟩,
                 ⟨"Error", "", .null, "00000000-0000-4000-0000-000000000002"⟩],
    parameters := [⟨"Text", "", .str "hello", none, ""⟩,
      ⟨"TextToSpeechType", "", .str "ssml", none, ""⟩,
      ⟨"CustomerInputType", "", .str "Custom", none, ""⟩,
      ⟨"Timeout", "", .str "7", none, ""⟩,
      ⟨"MaxDigits", "", .num 8, none, ""⟩,
      ⟨"EncryptEntry", "", .bool true, none, ""⟩,
      ⟨"DisableCancel", "", .bool true, none, ""⟩,
      ⟨"EncryptionKeyId", "", .str "fa0ef83f-fbfa-4acd-9bdb-a8564d35490e", none, ""⟩,
      ⟨"EncryptionKey", "", .str "-----BEGIN CERTIFICATE-----", none, ""⟩],
    target := "" }

/-- A call state whose receive delivers the digits 12345678 within the
timeout. -/
def encState : CallState :=
  { emptyCallState with rcvInput := some "12345678" }

/-- The encryption hook of the encrypted test case: wrap the raw input in
encrypt tags. -/
def testEncryptHook (inp : String) (_kid : String) (_cert : List Nat) : List Nat :=
  strBytes ("<encrypt>" ++ inp ++ "</encrypt>")

/-- A loaded flow used by the StartCall witness. -/
def mainFlow : Flow :=
  { start := "00000000-0000-4000-0000-000000000001", name := "main" }

/-- A simulator with one loaded flow registered as the starting flow of one
telephone number. -/
def simWithFlow : Simulator :=
  { flows := [("main", mainFlow)], telFlow := [("0123456789", mainFlow)] }

/-- A call configuration addressed to the registered number. -/
def callCfg : CallConfig :=
  { sourceNumber := "+447878123456", destNumber := "0123456789" }

/-- Setting a key makes it readable: the written binding is the one lookup
finds. -/
theorem lookupAssoc_setAssoc_self {α : Type} (l : List (String × α)) (k : String) (v : α) :
    lookupAssoc (setAssoc l k v) k = some v := by
  induction l with
  | nil => simp [setAssoc, lookupAssoc]
  | cons p rest ih =>
    by_cases h : p.1 = k
    · simp [setAssoc, lookupAssoc, h]
    · simp [setAssoc, lookupAssoc, h, ih]

/-- Claim C3: for every branch list and label, GetLink returns the transition of
the first branch in declaration order whose condition equals the label, and
returns none exactly when no branch carries that label.  It is a pure function
of the list and the label, hence deterministic. -/
theorem getLink_first_match (mbl : List ModuleBranch) (named : String) :
    ModuleBranchList.GetLink mbl named
      = Option.map ModuleBranch.transition
          (List.find? (fun b => decide (b.condition = named)) mbl)
  ∧ (ModuleBranchList.GetLink mbl named = none ↔ ∀ b ∈ mbl, b.condition ≠ named) := by
  constructor
  · induction mbl with
    | nil => rfl
    | cons b rest ih =>
      by_cases h : b.condition = named
      · simp [ModuleBranchList.GetLink, List.find?, h]
      · simp [ModuleBranchList.GetLink, List.find?, h, ih]
  · induction mbl with
    | nil => simp [ModuleBranchList.GetLink]
    | cons b rest ih =>
      by_cases h : b.condition = named
      · simp [ModuleBranchList.GetLink, h]
      · simp [ModuleBranchList.GetLink, h, ih]

/-- Claim C1: for a Transfer block with Queue target, when the queue name or
queue ARN was never stored in system state, Run follows the Error branch with
the state untouched (so no queue-transfer event is emitted); when both were
stored, Run appends exactly one queue-transfer event carrying the stored ARN
and name and returns no successor. -/
theorem transfer_queue_spec (m : Module) (s : CallState)
    (htype : m.type = "Transfer") (htarget : m.target = "Queue") :
    ((s.GetSystem SystemQueueName = none ∨ s.GetSystem SystemQueueARN = none) →
       transfer.Run m s = (.ok (ModuleBranchList.GetLink m.branches "Error"), s))
  ∧ (∀ qn qa, s.GetSystem SystemQueueName = some qn →
       s.GetSystem SystemQueueARN = some qa →
       transfer.Run m s = (.ok none, s.Emit (.queueTransfer qa qn)))
  ∧ (∀ e, (CallState.Emit s e).events = s.events ++ [e]) := by
  refine ⟨?_, ?_, fun e => rfl⟩
  · rintro (h | h)
    · cases ha : s.GetSystem SystemQueueARN <;>
        simp [transfer.Run, htype, htarget, h, ha]
    · cases hn : s.GetSystem SystemQueueName <;>
        simp [transfer.Run, htype, htarget, h, hn]
  · intro qn qa hn ha
    simp [transfer.Run, htype, htarget, hn, ha]

/-- Witness for C1 at the queue transfer block: with no queue identity stored
the Error branch is taken with no event; with the identity stored exactly one
queue-transfer event carrying it is emitted and the call ends. -/
theorem transfer_queue_spec_witness :
    transfer.Run queueMod emptyCallState
      = (.ok (some "00000000-0000-4000-0000-000000000002"), emptyCallState)
  ∧ transfer.Run queueMod queueSetState
      = (.ok none,
         queueSetState.Emit (.queueTransfer "arn:aws:connect:queue:sales" "sales")) := by
  constructor
  · have h := transfer_queue_spec queueMod emptyCallState rfl rfl
    have h1 := h.1 (Or.inl (by decide))
    rw [h1]; rfl
  · have h := transfer_queue_spec queueMod queueSetState rfl rfl
    exact h.2.1 "sales" "arn:aws:connect:queue:sales" (by decide) (by decide)

/-- Claim C2: dispatch is total by construction, and every type tag outside the
known enumeration selects the passthrough runner, whose only behavior is to
follow the block's Success-labeled branch when present (no successor
otherwise), never failing and never touching call state. -/
theorem makeRunner_unknown_passthrough (m : Module) (s : CallState)
    (h : m.type ∉ knownModuleTypes) :
    MakeRunner m = Runner.passthrough
  ∧ passthrough.Run m s = (.ok (ModuleBranchList.GetLink m.branches "Success"), s) := by
  refine ⟨?_, rfl⟩
  simp only [knownModuleTypes, List.mem_cons, List.not_mem_nil, or_false] at h
  push_neg at h
  obtain ⟨h1, h2, h3, h4, h5, h6, h7, h8, h9, h10, h11⟩ := h
  simp [MakeRunner, h1, h2, h3, h4, h5, h6, h7, h8, h9, h10, h11]

/-- Witness for C2 at the unknown type tag of TestMakeRunner: dispatch yields
the passthrough runner, which follows the Success branch. -/
theorem makeRunner_unknown_passthrough_witness :
    MakeRunner unknownMod = Runner.passthrough
  ∧ passthrough.Run unknownMod emptyCallState
      = (.ok (some "00000000-0000-4000-0000-000000000001"), emptyCallState) := by
  have h := makeRunner_unknown_passthrough unknownMod emptyCallState (by decide)
  refine ⟨h.1, ?_⟩
  rw [h.2]; rfl

/-- Claim C6: a Transfer block with PhoneNumber target and a present boolean
BlindTransfer emits exactly one number-transfer event carrying the PhoneNumber
value; with BlindTransfer true it returns no successor, with false it returns
the Success branch's successor. -/
theorem transfer_phoneNumber_spec (m : Module) (s : CallState)
    (htype : m.type = "Transfer") (htarget : m.target = "PhoneNumber")
    (pb : ModuleParameter) (blind : Bool)
    (hpb : ModuleParameterList.Get m.parameters "BlindTransfer" = some pb)
    (hpbv : pb.value = .bool blind)
    (pn : ModuleParameter) (tel : String)
    (hpn : ModuleParameterList.Get m.parameters "PhoneNumber" = some pn)
    (hpnv : pn.value = .str tel) :
    transfer.Run m s
      = (.ok (if blind then none else ModuleBranchList.GetLink m.branches "Success"),
         s.Emit (.numberTransfer tel)) := by
  cases blind <;>
    simp [transfer.Run, htype, htarget, hpb, hpbv, hpn, hpnv]

/-- Witness for C6: at the concrete PhoneNumber transfer block, blind transfer
emits the number-transfer event and ends the call; non-blind emits it and
follows Success. -/
theorem transfer_phoneNumber_spec_witness :
    transfer.Run (phoneMod true) emptyCallState
      = (.ok none, emptyCallState.Emit (.numberTransfer "+441234567890"))
  ∧ transfer.Run (phoneMod false) emptyCallState
      = (.ok (some "00000000-0000-4000-0000-000000000001"),
         emptyCallState.Emit (.numberTransfer "+441234567890")) := by
  constructor
  · exact transfer_phoneNumber_spec (phoneMod true) emptyCallState rfl rfl
      ⟨"BlindTransfer", "", .bool true, none, ""⟩ true (by decide) rfl
      ⟨"PhoneNumber", "", .str "+441234567890", none, ""⟩ "+441234567890" (by decide) rfl
  · have h := transfer_phoneNumber_spec (phoneMod false) emptyCallState rfl rfl
      ⟨"BlindTransfer", "", .bool false, none, ""⟩ false (by decide) rfl
      ⟨"PhoneNumber", "", .str "+441234567890", none, ""⟩ "+441234567890" (by decide) rfl
    rw [h]; rfl

/-- Claim C7: each embedded runner checks the block's type tag first; a block of
any other type makes Run fail with the wrong-module-type error, returning no
successor and leaving the whole call state exactly as it was (no event, no
store write). -/
theorem wrong_module_type_spec (m : Module) (s : CallState)
    (hook : String → String → List Nat → List Nat) :
    (m.type ≠ "Transfer" →
      transfer.Run m s
        = (.error ("module of type " ++ m.type ++ " being run as transfer"), s))
  ∧ (m.type ≠ "SetQueue" →
      setQueue.Run m s
        = (.error ("module of type " ++ m.type ++ " being run as setQueue"), s))
  ∧ (m.type ≠ "SetAttributes" →
      setAttributes.Run m s
        = (.error ("module of type " ++ m.type ++ " being run as setAttributes"), s))
  ∧ (m.type ≠ "Disconnect" →
      disconnect.Run m s
        = (.error ("module of type " ++ m.type ++ " being run as disconnect"), s))
  ∧ (m.type ≠ "StoreUserInput" →
      storeUserInput.Run hook m s
        = (.error ("module of type " ++ m.type ++ " being run as storeUserInput"), s)) := by
  refine ⟨fun h => ?_, fun h => ?_, fun h => ?_, fun h => ?_, fun h => ?_⟩ <;>
    first
    | simp [transfer.Run, h]
    | simp [setQueue.Run, h]
    | simp [setAttributes.Run, h]
    | simp [disconnect.Run, h]
    | simp [storeUserInput.Run, h]

/-- Witness for C7: routing the Transfer-typed queue block to the setQueue
runner fails with the wrong-module-type error and leaves the state unchanged. -/
theorem wrong_module_type_spec_witness :
    setQueue.Run queueMod emptyCallState
      = (.error "module of type Transfer being run as setQueue", emptyCallState) := by
  have h := (wrong_module_type_spec queueMod emptyCallState
    (fun _ _ _ => [])).2.1 (by decide)
  rw [h]; rfl

/-- Claim C9: each transfer matcher is not-applicable exactly on events of the
other kinds (with empty diagnostics), and on its own kind it is applicable,
passes exactly when the observed name equals the asserted one, and reports
the observed name. -/
theorem transfer_matchers_spec (name : String) (evt : Event) :
    ((queueTransferMatcher.matchEvt name evt).1 = true ↔
       evt.type = EventType.transferQueue)
  ∧ (evt.type ≠ EventType.transferQueue →
       queueTransferMatcher.matchEvt name evt = (false, false, ""))
  ∧ (∀ arn qn, evt = Event.queueTransfer arn qn →
       queueTransferMatcher.matchEvt name evt = (true, decide (qn = name), qn))
  ∧ ((flowTransferMatcher.matchEvt name evt).1 = true ↔
       evt.type = EventType.transferFlow)
  ∧ (evt.type ≠ EventType.transferFlow →
       flowTransferMatcher.matchEvt name evt = (false, false, ""))
  ∧ (∀ arn fn, evt = Event.flowTransfer arn fn →
       flowTransferMatcher.matchEvt name evt = (true, decide (fn = name), fn)) := by
  cases evt <;>
    simp [queueTransferMatcher.matchEvt, flowTransferMatcher.matchEvt, Event.type]

/-- Witness for C9 at concrete events: a queue-transfer event with the right
name passes the queue matcher and is not applicable to the flow matcher; a
wrong name is applicable but fails, reporting the observed name. -/
theorem transfer_matchers_spec_witness :
    queueTransferMatcher.matchEvt "sales" (.queueTransfer "arn:q" "sales")
      = (true, true, "sales")
  ∧ queueTransferMatcher.matchEvt "sales" (.queueTransfer "arn:q" "support")
      = (true, false, "support")
  ∧ flowTransferMatcher.matchEvt "sales" (.queueTransfer "arn:q" "sales")
      = (false, false, "")
  ∧ flowTransferMatcher.matchEvt "main" (.flowTransfer "arn:f" "main")
      = (true, true, "main") := by
  refine ⟨?_, ?_, ?_, ?_⟩
  · have h := (transfer_matchers_spec "sales"
      (.queueTransfer "arn:q" "sales")).2.2.1 "arn:q" "sales" rfl
    rw [h]; rfl
  · have h := (transfer_matchers_spec "sales"
      (.queueTransfer "arn:q" "support")).2.2.1 "arn:q" "support" rfl
    rw [h]; rfl
  · exact (transfer_matchers_spec "sales"
      (.queueTransfer "arn:q" "sales")).2.2.2.2.1 (by decide)
  · have h := (transfer_matchers_spec "main"
      (.flowTransfer "arn:f" "main")).2.2.2.2.2 "arn:f" "main" rfl
    rw [h]; rfl

/-- Claim C10: StartCall fails exactly when the destination number is empty or
no starting flow is registered for it; otherwise it returns a call starting at
the registered flow's start block. -/
theorem startCall_spec (cs : Simulator) (config : CallConfig) :
    ((∃ e, Simulator.StartCall cs config = .error e) ↔
       config.destNumber = "" ∨ lookupAssoc cs.telFlow config.destNumber = none)
  ∧ (∀ f, config.destNumber ≠ "" →
       lookupAssoc cs.telFlow config.destNumber = some f →
       Simulator.StartCall cs config = .ok f.start) := by
  constructor
  · by_cases hd : config.destNumber = ""
    · simp [Simulator.StartCall, hd]
    · cases hl : lookupAssoc cs.telFlow config.destNumber <;>
        simp [Simulator.StartCall, hd, hl]
  · intro f hd hl
    simp [Simulator.StartCall, hd, hl]

/-- Witness for C10: a registered number yields a call at the registered flow's
start block; an empty destination and an unregistered number each fail. -/
theorem startCall_spec_witness :
    Simulator.StartCall simWithFlow callCfg
      = .ok "00000000-0000-4000-0000-000000000001"
  ∧ (∃ e, Simulator.StartCall simWithFlow { callCfg with destNumber := "" } = .error e)
  ∧ (∃ e, Simulator.StartCall simWithFlow { callCfg with destNumber := "999" } = .error e) := by
  refine ⟨?_, ?_, ?_⟩
  · exact (startCall_spec simWithFlow callCfg).2 mainFlow (by decide) (by decide)
  · exact ((startCall_spec simWithFlow { callCfg with destNumber := "" }).1).2
      (Or.inl rfl)
  · exact ((startCall_spec simWithFlow { callCfg with destNumber := "999" }).1).2
      (Or.inr (by decide))

/-- A scan containing no dollar-dot pair is returned unchanged, for any fuel. -/
theorem substAux_no_refStart (st : CallState) (l : List Char)
    (h : hasRefStart l = false) : ∀ fuel, substAux st fuel l = l := by
  induction l with
  | nil => intro fuel; cases fuel <;> rfl
  | cons c rest ih =>
    intro fuel
    cases fuel with
    | zero => rfl
    | succ f =>
      simp only [hasRefStart, Bool.or_eq_false_iff, Bool.and_eq_false_iff,
        decide_eq_false_iff_not] at h
      have hc : ¬(c = '$' ∧ rest.head? = some '.') := by
        rintro ⟨h1, h2⟩
        rcases h.1 with hx | hx
        · exact hx h1
        · exact hx h2
      simp only [substAux, if_neg hc]
      rw [ih h.2 f]

/-- When every namespace lookup misses, the scan leaves the text unchanged,
for any fuel: each reference stays verbatim. -/
theorem substAux_no_lookup (st : CallState)
    (hs : ∀ ns key, lookupNamespaceStore st ns key = none)
    (l : List Char) : ∀ fuel, substAux st fuel l = l := by
  induction l with
  | nil => intro fuel; cases fuel <;> rfl
  | cons c rest ih =>
    intro fuel
    cases fuel with
    | zero => rfl
    | succ f =>
      by_cases hc : (c = '$' ∧ rest.head? = some '.')
      · simp only [substAux, if_pos hc]
        cases hp : parseRef rest.tail with
        | none => rw [ih f]
        | some trip =>
          obtain ⟨ns, key, rem⟩ := trip
          show (match lookupNamespaceStore st ns key with
            | some v => v.data ++ substAux st f rem
            | none => c :: substAux st f rest) = c :: rest
          rw [hs ns key, ih f]
      · simp only [substAux, if_neg hc]
        rw [ih f]

/-- Claim C8: template substitution returns any input with no dollar-dot
reference unchanged, and leaves every reference whose key is not found
verbatim, so that resolving a string against stores in which every lookup
misses returns the original string. -/
theorem substituteTemplates_roundtrip (st : CallState) (s : String) :
    (hasRefStart s.data = false → substituteTemplates st s = s)
  ∧ ((∀ ns key, lookupNamespaceStore st ns key = none) →
       substituteTemplates st s = s) := by
  constructor
  · intro h
    unfold substituteTemplates
    rw [substAux_no_refStart st s.data h]
  · intro h
    unfold substituteTemplates
    rw [substAux_no_lookup st h s.data]

/-- Witness for C8: a reference-free string and a string holding only an
unresolvable reference each round-trip unchanged through substitution. -/
theorem substituteTemplates_roundtrip_witness :
    substituteTemplates emptyCallState "no references here" = "no references here"
  ∧ substituteTemplates emptyCallState "$.External.missing stays verbatim"
      = "$.External.missing stays verbatim" := by
  constructor
  · exact (substituteTemplates_roundtrip emptyCallState "no references here").1
      (by decide)
  · refine (substituteTemplates_roundtrip emptyCallState
      "$.External.missing stays verbatim").2 ?_
    intro ns key
    simp [lookupNamespaceStore, emptyCallState, lookupAssoc]

/-- Claim C4: a StoreUserInput block whose receive times out proceeds via the
Success branch; the last-input system key and every store are exactly as
before the block ran, only the outbound prompt having been recorded by the
send that preceded the receive. -/
theorem storeUserInput_timeout_spec
    (hook : String → String → List Nat → List Nat) (m : Module) (s : CallState)
    (htype : m.type = "StoreUserInput")
    (pText : ModuleParameter)
    (hText : ModuleParameterList.Get m.parameters "Text" = some pText)
    (pT : ModuleParameter) (tstr : String) (tv : Int)
    (hT : ModuleParameterList.Get m.parameters "Timeout" = some pT)
    (hTv : pT.value = .str tstr) (hAtoi : atoi? tstr = some tv)
    (pM : ModuleParameter) (md : Int)
    (hM : ModuleParameterList.Get m.parameters "MaxDigits" = some pM)
    (hMv : pM.value = .num md)
    (pE : ModuleParameter) (eb : Bool)
    (hE : ModuleParameterList.Get m.parameters "EncryptEntry" = some pE)
    (hEv : pE.value = .bool eb)
    (pD : ModuleParameter) (db : Bool)
    (hD : ModuleParameterList.Get m.parameters "DisableCancel" = some pD)
    (hDv : pD.value = .bool db)
    (hRcv : s.rcvInput = none) :
    storeUserInput.Run hook m s
      = (.ok (ModuleBranchList.GetLink m.branches "Success"),
         s.Send (resolveParamText s pText) (isSSML m.parameters))
  ∧ (s.Send (resolveParamText s pText) (isSSML m.parameters)).GetSystem
      SystemLastUserInput = s.GetSystem SystemLastUserInput
  ∧ (s.Send (resolveParamText s pText) (isSSML m.parameters)).system = s.system
  ∧ (s.Send (resolveParamText s pText) (isSSML m.parameters)).contactData
      = s.contactData
  ∧ (s.Send (resolveParamText s pText) (isSSML m.parameters)).external = s.external
  ∧ (s.Send (resolveParamText s pText) (isSSML m.parameters)).events = s.events := by
  refine ⟨?_, rfl, rfl, rfl, rfl, rfl⟩
  simp [storeUserInput.Run, htype, hText, hT, hTv, hAtoi, hM, hMv, hE, hEv, hD, hDv,
    CallState.Send, hRcv]

/-- Witness for C4 at the timeout test case: the call proceeds to the Success
transition, the prompt was sent, and the last-input key reads as absent, the
same as before the block ran. -/
theorem storeUserInput_timeout_spec_witness :
    storeUserInput.Run testEncryptHook okMod timeoutState
      = (.ok (some "00000000-0000-4000-0000-000000000001"),
         { timeoutState with
           output := some
             ("<speak>Please enter digits 1 and 3 of your passcode.</speak>", true) })
  ∧ (storeUserInput.Run testEncryptHook okMod timeoutState).2.GetSystem
      SystemLastUserInput = none := by
  have h := storeUserInput_timeout_spec testEncryptHook okMod timeoutState rfl
    ⟨"Text", "", .str "prompt", some "External", ""⟩ rfl
    ⟨"Timeout", "", .str "7", none, ""⟩ "7" 7 rfl rfl rfl
    ⟨"MaxDigits", "", .num 8, none, ""⟩ 8 rfl rfl
    ⟨"EncryptEntry", "", .bool false, none, ""⟩ false rfl rfl
    ⟨"DisableCancel", "", .bool true, none, ""⟩ true rfl rfl
    rfl
  constructor
  · rw [h.1]; rfl
  · rw [h.1]; rfl

/-- Claim C5: a StoreUserInput block with EncryptEntry true, a key id and a
certificate, on input received within the timeout, stores as last-input the
standard base64 encoding of the encryption hook applied to the raw digits,
the key id and the certificate bytes, and proceeds via Success. -/
theorem storeUserInput_encrypted_spec
    (hook : String → String → List Nat → List Nat) (m : Module) (s : CallState)
    (htype : m.type = "StoreUserInput")
    (pText : ModuleParameter)
    (hText : ModuleParameterList.Get m.parameters "Text" = some pText)
    (pT : ModuleParameter) (tstr : String) (tv : Int)
    (hT : ModuleParameterList.Get m.parameters "Timeout" = some pT)
    (hTv : pT.value = .str tstr) (hAtoi : atoi? tstr = some tv)
    (pM : ModuleParameter) (md : Int)
    (hM : ModuleParameterList.Get m.parameters "MaxDigits" = some pM)
    (hMv : pM.value = .num md)
    (pE : ModuleParameter)
    (hE : ModuleParameterList.Get m.parameters "EncryptEntry" = some pE)
    (hEv : pE.value = .bool true)
    (pD : ModuleParameter) (db : Bool)
    (hD : ModuleParameterList.Get m.parameters "DisableCancel" = some pD)
    (hDv : pD.value = .bool db)
    (pKid : ModuleParameter) (kid : String)
    (hKid : ModuleParameterList.Get m.parameters "EncryptionKeyId" = some pKid)
    (hKidv : pKid.value = .str kid)
    (pCert : ModuleParameter) (cert : String)
    (hCert : ModuleParameterList.Get m.parameters "EncryptionKey" = some pCert)
    (hCertv : pCert.value = .str cert)
    (input : String) (hRcv : s.rcvInput = some input) :
    storeUserInput.Run hook m s
      = (.ok (ModuleBranchList.GetLink m.branches "Success"),
         (s.Send (resolveParamText s pText) (isSSML m.parameters)).SetSystem
           SystemLastUserInput (base64Encode (hook input kid (strBytes cert))))
  ∧ ((s.Send (resolveParamText s pText) (isSSML m.parameters)).SetSystem
       SystemLastUserInput
       (base64Encode (hook input kid (strBytes cert)))).GetSystem SystemLastUserInput
      = some (base64Encode (hook input kid (strBytes cert))) := by
  constructor
  · simp [storeUserInput.Run, htype, hText, hT, hTv, hAtoi, hM, hMv, hE, hEv, hD, hDv,
      hKid, hKidv, hCert, hCertv, CallState.Send, hRcv]
  · simp [CallState.GetSystem, CallState.SetSystem, lookupAssoc_setAssoc_self]

/-- Witness for C5 at the encrypted test case: with the tag-wrapping hook and
input 12345678, the stored last-input is the base64 encoding of the wrapped
digits, and the call proceeds to the Success transition. -/
theorem storeUserInput_encrypted_spec_witness :
    (storeUserInput.Run testEncryptHook encMod encState).2.GetSystem
      SystemLastUserInput
      = some (base64Encode (strBytes "<encrypt>12345678</encrypt>"))
  ∧ (storeUserInput.Run testEncryptHook encMod encState).2.GetSystem
      SystemLastUserInput = some "PGVuY3J5cHQ+MTIzNDU2Nzg8L2VuY3J5cHQ+"
  ∧ (storeUserInput.Run testEncryptHook encMod encState).1
      = .ok (some "00000000-0000-4000-0000-000000000001") := by
  have h := storeUserInput_encrypted_spec testEncryptHook encMod encState rfl
    ⟨"Text", "", .str "hello", none, ""⟩ rfl
    ⟨"Timeout", "", .str "7", none, ""⟩ "7" 7 rfl rfl rfl
    ⟨"MaxDigits", "", .num 8, none, ""⟩ 8 rfl rfl
    ⟨"EncryptEntry", "", .bool true, none, ""⟩ rfl rfl
    ⟨"DisableCancel", "", .bool true, none, ""⟩ true rfl rfl
    ⟨"EncryptionKeyId", "", .str "fa0ef83f-fbfa-4acd-9bdb-a8564d35490e", none, ""⟩
      "fa0ef83f-fbfa-4acd-9bdb-a8564d35490e" rfl rfl
    ⟨"EncryptionKey", "", .str "-----BEGIN CERTIFICATE-----", none, ""⟩
      "-----BEGIN CERTIFICATE-----" rfl rfl
    "12345678" rfl
  refine ⟨?_, ?_, ?_⟩
  · rw [h.1]; rfl
  · rw [h.1]; rfl
  · rw [h.1]; rfl

end ACSim
